import Mathlib

/-!
Verification of the double-pendulum simulation core
(src/utils/physics.ts and src/components/VelocityChaosFractalVisualizer.tsx).

Modelling conventions:
* JavaScript `number` (IEEE double) is modelled as an element of a generic
  linear ordered field `K` in the definitions (kept generic so the
  definitions stay executable, e.g. at `K := ℚ`); the claim theorems
  instantiate `K := ℝ`.  The purely rational bookkeeping (progress
  percentages, speed-multiplier step counts, the colour map) is modelled
  over `ℚ`, since every IEEE double is a rational number.
* `Math.sin`, `Math.cos`, `Math.sqrt`, `Math.pow` and `Math.PI` are modelled
  as explicit function/constant parameters (`sin cos sqrt : K → K`,
  `powf : K → K → K`, `pi : K`); theorems assume only the properties of
  these functions that they need (e.g. `sin 0 = 0`), and witnesses
  instantiate them with `Real.sin`, `Real.cos`, `Real.sqrt`, `Real.rpow`.
* JavaScript `Math.round x` is `⌊x + 1/2⌋` (round half toward +∞) and
  `Math.floor` is `Int.floor`, both exact per the ECMAScript definitions.
-/

/-- `PendulumState` of src/types.ts: the two rod angles and angular
velocities. -/
structure PendulumState (K : Type*) where
  theta1 : K
  theta2 : K
  omega1 : K
  omega2 : K

attribute [ext] PendulumState

/-- `PhysicsParams` of src/types.ts: rod lengths, masses and gravity. -/
structure PhysicsParams (K : Type*) where
  l1 : K
  l2 : K
  m1 : K
  m2 : K
  g : K

/-- Return type of `getDerivatives` in src/utils/physics.ts. -/
structure Derivatives (K : Type*) where
  dTheta1 : K
  dTheta2 : K
  dOmega1 : K
  dOmega2 : K

variable {K : Type*} [LinearOrderedField K]

/-- The local `den1` of `getDerivatives` (src/utils/physics.ts):
`2*m1 + m2 - m2*Math.cos(2*theta1 - 2*theta2)`. -/
def den1 (cos : K → K) (state : PendulumState K) (params : PhysicsParams K) : K :=
  2 * params.m1 + params.m2 - params.m2 * cos (2 * state.theta1 - 2 * state.theta2)

/-- The local `den2` of `getDerivatives` (src/utils/physics.ts); the source
computes the same expression a second time. -/
def den2 (cos : K → K) (state : PendulumState K) (params : PhysicsParams K) : K :=
  2 * params.m1 + params.m2 - params.m2 * cos (2 * state.theta1 - 2 * state.theta2)

/-- `getDerivatives` of src/utils/physics.ts, with `Math.sin`/`Math.cos`
abstracted as the parameters `sin`/`cos`. -/
def getDerivatives (sin cos : K → K) (state : PendulumState K) (params : PhysicsParams K) :
    Derivatives K :=
  let delta := state.theta1 - state.theta2
  let num1 := -params.g * (2 * params.m1 + params.m2) * sin state.theta1
      - params.m2 * params.g * sin (state.theta1 - 2 * state.theta2)
      - 2 * sin delta * params.m2 *
        (state.omega2 * state.omega2 * params.l2
          + state.omega1 * state.omega1 * params.l1 * cos delta)
  let alpha1 := num1 / (params.l1 * den1 cos state params)
  let num2 := 2 * sin delta *
      (state.omega1 * state.omega1 * params.l1 * (params.m1 + params.m2)
        + params.g * (params.m1 + params.m2) * cos state.theta1
        + state.omega2 * state.omega2 * params.l2 * params.m2 * cos delta)
  let alpha2 := num2 / (params.l2 * den2 cos state params)
  { dTheta1 := state.omega1
    dTheta2 := state.omega2
    dOmega1 := alpha1
    dOmega2 := alpha2 }

/-- `integrateRK4Step` of src/utils/physics.ts: one classical RK4 step. -/
def integrateRK4Step (sin cos : K → K) (state : PendulumState K) (params : PhysicsParams K)
    (dt : K) : PendulumState K :=
  let k1 := getDerivatives sin cos state params
  let s2 : PendulumState K :=
    { theta1 := state.theta1 + k1.dTheta1 * dt * 0.5
      theta2 := state.theta2 + k1.dTheta2 * dt * 0.5
      omega1 := state.omega1 + k1.dOmega1 * dt * 0.5
      omega2 := state.omega2 + k1.dOmega2 * dt * 0.5 }
  let k2 := getDerivatives sin cos s2 params
  let s3 : PendulumState K :=
    { theta1 := state.theta1 + k2.dTheta1 * dt * 0.5
      theta2 := state.theta2 + k2.dTheta2 * dt * 0.5
      omega1 := state.omega1 + k2.dOmega1 * dt * 0.5
      omega2 := state.omega2 + k2.dOmega2 * dt * 0.5 }
  let k3 := getDerivatives sin cos s3 params
  let s4 : PendulumState K :=
    { theta1 := state.theta1 + k3.dTheta1 * dt
      theta2 := state.theta2 + k3.dTheta2 * dt
      omega1 := state.omega1 + k3.dOmega1 * dt
      omega2 := state.omega2 + k3.dOmega2 * dt }
  let k4 := getDerivatives sin cos s4 params
  { theta1 := state.theta1 + (dt / 6) * (k1.dTheta1 + 2 * k2.dTheta1 + 2 * k3.dTheta1 + k4.dTheta1)
    theta2 := state.theta2 + (dt / 6) * (k1.dTheta2 + 2 * k2.dTheta2 + 2 * k3.dTheta2 + k4.dTheta2)
    omega1 := state.omega1 + (dt / 6) * (k1.dOmega1 + 2 * k2.dOmega1 + 2 * k3.dOmega1 + k4.dOmega1)
    omega2 := state.omega2 + (dt / 6) * (k1.dOmega2 + 2 * k2.dOmega2 + 2 * k3.dOmega2 + k4.dOmega2) }

/-- `FRACTAL_PARAMS` of src/components/VelocityChaosFractalVisualizer.tsx. -/
def FRACTAL_PARAMS : PhysicsParams K :=
  { l1 := 1.0, l2 := 1.0, m1 := 1.0, m2 := 1.0, g := 9.81 }

/-- The all-zero pendulum state. -/
def zeroState : PendulumState K :=
  { theta1 := 0, theta2 := 0, omega1 := 0, omega2 := 0 }

/-- State owned by the `PendulumSimulation` class of src/utils/physics.ts.
`speedMultiplier` is kept in `ℚ` (every IEEE double is rational); it never
enters the physics, only the per-frame step count. -/
structure SimState (K : Type*) where
  state : PendulumState K
  initialState : PendulumState K
  speedMultiplier : ℚ
  isRunning : Bool

/-- `PendulumSimulation.getState` (defensive copy; copying is the identity
under value semantics). -/
def SimState.getState (sim : SimState K) : PendulumState K := sim.state

/-- `PendulumSimulation.getInitialState` (defensive copy). -/
def SimState.getInitialState (sim : SimState K) : PendulumState K := sim.initialState

/-- `PendulumSimulation.reset` of src/utils/physics.ts.  The four optional
arguments are `Option K`; the two `Math.random()` draws of the all-omitted
branch are the explicit inputs `rand1, rand2 ∈ [0,1)`, and `Math.PI` is the
parameter `pi`.  The method stops the loop, computes the new state, makes it
both the live state and the new initial state, fires the reset listeners and
a single-element history notification (effects not part of the returned
record) and restarts the loop (`isRunning := true`). -/
def SimState.reset (sim : SimState K) (pi rand1 rand2 : K)
    (theta1 theta2 omega1 omega2 : Option K) : SimState K :=
  let nextTheta1 := theta1.getD sim.initialState.theta1
  let nextTheta2 := theta2.getD sim.initialState.theta2
  let nextOmega1 := omega1.getD sim.initialState.omega1
  let nextOmega2 := omega2.getD sim.initialState.omega2
  let newState : PendulumState K :=
    if theta1.isNone && theta2.isNone && omega1.isNone && omega2.isNone then
      { theta1 := pi / 2 + (rand1 * 0.5 - 0.25)
        theta2 := pi / 2 + 1 + (rand2 * 0.5 - 0.25)
        omega1 := 0
        omega2 := 0 }
    else
      { theta1 := nextTheta1
        theta2 := nextTheta2
        omega1 := nextOmega1
        omega2 := nextOmega2 }
  { sim with state := newState, initialState := newState, isRunning := true }

/-- A concrete simulation state used by witnesses. -/
def sampleSim : SimState K :=
  { state := zeroState
    initialState := { theta1 := 1, theta2 := 2, omega1 := 3, omega2 := 4 }
    speedMultiplier := 1
    isRunning := true }

/-- JavaScript `Math.round`: round to the nearest integer, ties toward
`+∞`; exactly `⌊q + 1/2⌋` per the ECMAScript specification. -/
def jsRound (q : ℚ) : ℤ := ⌊q + 1 / 2⌋

/-- `baseStepsPerFrame` field of `PendulumSimulation` (src/utils/physics.ts). -/
def baseStepsPerFrame : ℕ := 40

/-- Per-frame step count of `PendulumSimulation.loop`:
`Math.max(1, Math.round(this.baseStepsPerFrame * this.speedMultiplier))`. -/
def frameSteps (speedMultiplier : ℚ) : ℕ :=
  (max 1 (jsRound ((baseStepsPerFrame : ℚ) * speedMultiplier))).toNat

/-- The `for` loop of `PendulumSimulation.loop`: perform `n` integration
steps, pushing each post-step state. -/
def runSteps (step : PendulumState K → PendulumState K) :
    ℕ → PendulumState K → List (PendulumState K)
  | 0, _ => []
  | n + 1, s =>
      let s1 := step s
      s1 :: runSteps step n s1

/-- One frame of `PendulumSimulation.loop` (src/utils/physics.ts): with the
local `dt = 0.01`, it pushes the pre-step state, performs
`frameSteps speedMultiplier` integration steps pushing each state, and calls
`notify(history)` exactly once.  Returns the history and the list of
notification events of the frame (one broadcast, carrying the history). -/
def loopFrame (sin cos : K → K) (params : PhysicsParams K) (speedMultiplier : ℚ)
    (state : PendulumState K) :
    List (PendulumState K) × List (List (PendulumState K)) :=
  let dt : K := 0.01
  let steps := frameSteps speedMultiplier
  let history := state :: runSteps (fun s => integrateRK4Step sin cos s params dt) steps state
  (history, [history])

/-- `RESOLUTION` of src/components/VelocityChaosFractalVisualizer.tsx. -/
def RESOLUTION : ℕ := 250

/-- `SIM_STEPS` of src/components/VelocityChaosFractalVisualizer.tsx. -/
def SIM_STEPS : ℕ := 3000

/-- `DT` of src/components/VelocityChaosFractalVisualizer.tsx. -/
def DT : K := 0.01

/-- `EPSILON` of src/components/VelocityChaosFractalVisualizer.tsx. -/
def EPSILON : K := 0.001

/-- The `BOUNDS` record of the velocity-map component. -/
structure OmegaBounds (K : Type*) where
  minOmega : K
  maxOmega : K
  range : K

/-- `BOUNDS = {minOmega: -10, maxOmega: 10, range: 20}` of
src/components/VelocityChaosFractalVisualizer.tsx. -/
def BOUNDS : OmegaBounds K :=
  { minOmega := -10, maxOmega := 10, range := 20 }

/-- The per-step distance of `processBatch`:
`Math.sqrt(dTheta1*dTheta1 + dTheta2*dTheta2 + dOmega1*dOmega1 + dOmega2*dOmega2)`. -/
def dist4 (sqrt : K → K) (a b : PendulumState K) : K :=
  sqrt ((a.theta1 - b.theta1) * (a.theta1 - b.theta1)
    + (a.theta2 - b.theta2) * (a.theta2 - b.theta2)
    + (a.omega1 - b.omega1) * (a.omega1 - b.omega1)
    + (a.omega2 - b.omega2) * (a.omega2 - b.omega2))

/-- The inner `for` loop of `processBatch`: advance both trajectories one
`integrateRK4Step` with `FRACTAL_PARAMS` and `DT`, then accumulate
`Math.min(dist, 2.0)` into `totalDiff`, `n` times. -/
def divergenceLoop (sin cos sqrt : K → K) :
    ℕ → PendulumState K → PendulumState K → K → K
  | 0, _, _, totalDiff => totalDiff
  | n + 1, s1, s2, totalDiff =>
      let s1n := integrateRK4Step sin cos s1 FRACTAL_PARAMS DT
      let s2n := integrateRK4Step sin cos s2 FRACTAL_PARAMS DT
      divergenceLoop sin cos sqrt n s1n s2n (totalDiff + min (dist4 sqrt s1n s2n) 2)

/-- The first seed of cell `(x, y)` in `processBatch`: zero angles and
`omega1 = minOmega + (x/RESOLUTION)*range`, `omega2` likewise from `y`. -/
def cellSeedA (x y : ℕ) : PendulumState K :=
  { theta1 := 0
    theta2 := 0
    omega1 := BOUNDS.minOmega + ((x : K) / (RESOLUTION : K)) * (BOUNDS : OmegaBounds K).range
    omega2 := BOUNDS.minOmega + ((y : K) / (RESOLUTION : K)) * (BOUNDS : OmegaBounds K).range }

/-- The second seed of cell `(x, y)` in `processBatch`: the same state with
both omega components offset by `+EPSILON`. -/
def cellSeedB (x y : ℕ) : PendulumState K :=
  { theta1 := 0
    theta2 := 0
    omega1 := (cellSeedA x y : PendulumState K).omega1 + EPSILON
    omega2 := (cellSeedA x y : PendulumState K).omega2 + EPSILON }

/-- `avgDist` of `processBatch`: `totalDiff / SIM_STEPS` after the loop. -/
def cellScore (sin cos sqrt : K → K) (x y : ℕ) : K :=
  divergenceLoop sin cos sqrt SIM_STEPS (cellSeedA x y) (cellSeedB x y) 0 / (SIM_STEPS : K)

/-- `normalized`/`intensity` of `processBatch`:
`Math.min(1, Math.pow(avgDist / 1.5, 0.4))`. -/
def cellIntensity (sin cos sqrt : K → K) (powf : K → K → K) (x y : ℕ) : K :=
  min 1 (powf (cellScore sin cos sqrt x y / 1.5) 0.4)

/-- The progress percentage published after each batch:
`Math.round((pixelIndex / totalPixels) * 100)`. -/
def progressPercent (cellsDone totalCells : ℕ) : ℤ :=
  jsRound ((cellsDone : ℚ) / (totalCells : ℚ) * 100)

/-- `totalPixels = RESOLUTION * RESOLUTION` of the velocity-map component. -/
def totalPixels : ℕ := RESOLUTION * RESOLUTION

/-- The progress values published by the successive batch callbacks of one
run, given the successive values of `pixelIndex` at each batch end (the
12 ms wall-clock budget makes the batch boundaries nondeterministic). -/
def runPublishes (total : ℕ) (ends : List ℕ) : List ℤ :=
  ends.map (fun c => progressPercent c total)

/-- The batch-end `pixelIndex` sequences reachable by an uncancelled run:
`pixelIndex` strictly increases from batch to batch (the while loop always
processes at least one pixel) and the final batch reaches `total`. -/
def validBatchEnds (total : ℕ) (ends : List ℕ) : Prop :=
  List.Pairwise (fun a b => a < b) ends ∧ ends.getLast? = some total

/-- Outcome of starting a chaos-map generation run. -/
inductive StartOutcome where
  | started
  | configError
deriving DecidableEq

/-- Start of a generation run (the `useEffect` body of
src/components/VelocityChaosFractalVisualizer.tsx, lines 40–151): it
allocates the buffer, resets progress and schedules the first batch.  The
source contains no validation of the resolution, the step count or the
step size, so every configuration starts the run. -/
def generationStart (resolution simSteps : ℕ) (dt : ℚ) : StartOutcome :=
  StartOutcome.started

/-- Result of one `processBatch` invocation. -/
inductive BatchStep where
  | halted
  | finished
  | progressed (newIndex : ℤ) (publishedProgress : ℤ)
deriving DecidableEq

/-- One invocation of `processBatch`: return if cancelled; finish (done,
no further publish) if `pixelIndex >= totalPixels`; otherwise process up to
`batchBudget` pixels (the 12 ms wall-clock budget), stopping at `total`,
and publish the rounded percentage. -/
def processBatch (isCancelled : Bool) (pixelIndex total batchBudget : ℕ) : BatchStep :=
  if isCancelled then BatchStep.halted
  else if total ≤ pixelIndex then BatchStep.finished
  else
    let newIndex := min (pixelIndex + batchBudget) total
    BatchStep.progressed newIndex (progressPercent newIndex total)

/-- Clamp `x` into `[lo, hi]`, the `clamp(lo, hi, x)` of the spec. -/
def clamp (lo hi x : K) : K := max lo (min x hi)

/-- Modelled from the spec: trajectory A is seeded at the mapped state
`{theta1: 0, theta2: 0, omega1: minOmega + (x/RESOLUTION)*range,
omega2: minOmega + (y/RESOLUTION)*range}`. -/
def specSeedA (x y : ℕ) : PendulumState K :=
  { theta1 := 0
    theta2 := 0
    omega1 := BOUNDS.minOmega + ((x : K) / (RESOLUTION : K)) * (BOUNDS : OmegaBounds K).range
    omega2 := BOUNDS.minOmega + ((y : K) / (RESOLUTION : K)) * (BOUNDS : OmegaBounds K).range }

/-- Modelled from the spec: trajectory B starts at the same state with both
free dimensions offset by `+EPSILON`. -/
def specSeedB (x y : ℕ) : PendulumState K :=
  { theta1 := 0
    theta2 := 0
    omega1 := (specSeedA x y : PendulumState K).omega1 + EPSILON
    omega2 := (specSeedA x y : PendulumState K).omega2 + EPSILON }

/-- Modelled from the spec: a trajectory advanced `i` times with step `DT`
via the Integrator. -/
def specTraj (sin cos : K → K) (s0 : PendulumState K) (i : ℕ) : PendulumState K :=
  (fun s => integrateRK4Step sin cos s FRACTAL_PARAMS DT)^[i] s0

/-- Modelled from the spec: the Euclidean distance between two
4-dimensional states. -/
def specDist (sqrt : K → K) (a b : PendulumState K) : K :=
  sqrt ((a.theta1 - b.theta1) ^ 2 + (a.theta2 - b.theta2) ^ 2
    + (a.omega1 - b.omega1) ^ 2 + (a.omega2 - b.omega2) ^ 2)

/-- Modelled from the spec: the divergence score is the arithmetic mean,
over all `SIM_STEPS` steps, of the per-step Euclidean distance clamped to a
maximum of 2.0. -/
def specScore (sin cos sqrt : K → K) (x y : ℕ) : K :=
  (∑ i ∈ Finset.range SIM_STEPS,
      min (specDist sqrt (specTraj sin cos (specSeedA x y) (i + 1))
        (specTraj sin cos (specSeedB x y) (i + 1))) 2) / (SIM_STEPS : K)

/-- Modelled from the spec: `intensity = clamp(0, 1, (score/1.5)^0.4)`. -/
def specIntensity (sin cos sqrt : K → K) (powf : K → K → K) (x y : ℕ) : K :=
  clamp 0 1 (powf (specScore sin cos sqrt x y / 1.5) 0.4)

/-- First gradient segment of `processBatch` (`intensity < 0.2`):
`t = intensity/0.2`, `(r, g, b) = (0, 0, floor(t*160))`. -/
def seg1 (intensity : ℚ) : ℤ × ℤ × ℤ :=
  let t := intensity / 0.2
  (0, 0, ⌊t * 160⌋)

/-- Second gradient segment (`0.2 ≤ intensity < 0.4`):
`t = (intensity-0.2)/0.2`, `(floor(t*100), 0, 160 + floor(t*95))`. -/
def seg2 (intensity : ℚ) : ℤ × ℤ × ℤ :=
  let t := (intensity - 0.2) / 0.2
  (⌊t * 100⌋, 0, 160 + ⌊t * 95⌋)

/-- Third gradient segment (`0.4 ≤ intensity < 0.6`):
`t = (intensity-0.4)/0.2`, `(100 + floor(t*155), 0, 255 - floor(t*255))`. -/
def seg3 (intensity : ℚ) : ℤ × ℤ × ℤ :=
  let t := (intensity - 0.4) / 0.2
  (100 + ⌊t * 155⌋, 0, 255 - ⌊t * 255⌋)

/-- Fourth gradient segment (`0.6 ≤ intensity < 0.8`):
`t = (intensity-0.6)/0.2`, `(255, floor(t*200), 0)`. -/
def seg4 (intensity : ℚ) : ℤ × ℤ × ℤ :=
  let t := (intensity - 0.6) / 0.2
  (255, ⌊t * 200⌋, 0)

/-- Fifth gradient segment (`intensity ≥ 0.8`):
`t = (intensity-0.8)/0.2`, `(255, 200 + floor(t*55), floor(t*255))`. -/
def seg5 (intensity : ℚ) : ℤ × ℤ × ℤ :=
  let t := (intensity - 0.8) / 0.2
  (255, 200 + ⌊t * 55⌋, ⌊t * 255⌋)

/-- The 5-segment piecewise colour mapping of `processBatch`
(src/components/VelocityChaosFractalVisualizer.tsx, lines 108–133). -/
def colorRGB (intensity : ℚ) : ℤ × ℤ × ℤ :=
  if intensity < 0.2 then seg1 intensity
  else if intensity < 0.4 then seg2 intensity
  else if intensity < 0.6 then seg3 intensity
  else if intensity < 0.8 then seg4 intensity
  else seg5 intensity

/-- The full pixel write of `processBatch`: the RGB triple from the
gradient and `data[idx+3] = 255` (fully opaque alpha). -/
def colorMap (intensity : ℚ) : ℤ × ℤ × ℤ × ℤ :=
  ((colorRGB intensity).1, (colorRGB intensity).2.1, (colorRGB intensity).2.2, 255)

lemma getDerivatives_zero (sin cos : K → K) (params : PhysicsParams K)
    (hsin : sin 0 = 0) :
    getDerivatives sin cos
        { theta1 := 0, theta2 := 0, omega1 := 0, omega2 := 0 } params =
      { dTheta1 := 0, dTheta2 := 0, dOmega1 := 0, dOmega2 := 0 } := by
  simp [getDerivatives, den1, den2, hsin]

lemma integrateRK4Step_zero (sin cos : K → K) (params : PhysicsParams K)
    (hsin : sin 0 = 0) (dt : K) :
    integrateRK4Step sin cos zeroState params dt = zeroState := by
  have h := getDerivatives_zero sin cos params hsin
  simp [integrateRK4Step, zeroState, h]

/-- C6: with `FRACTAL_PARAMS = {l1:1, l2:1, m1:1, m2:1, g:9.81}` the all-zero
state `{theta1:0, theta2:0, omega1:0, omega2:0}` is an exact fixed point of
`integrateRK4Step`: for every `dt` and every number `n` of repeated
applications the state stays `{0,0,0,0}` (every derivative term vanishes
because `sin 0 = 0`). -/
theorem c6_zero_state_fixed_point (sin cos : ℝ → ℝ) (hsin : sin 0 = 0)
    (dt : ℝ) (n : ℕ) :
    (fun s => integrateRK4Step sin cos s FRACTAL_PARAMS dt)^[n] zeroState = zeroState := by
  induction n with
  | zero => rfl
  | succ n ih =>
      rw [Function.iterate_succ_apply, integrateRK4Step_zero sin cos FRACTAL_PARAMS hsin dt]
      exact ih

/-- Witness for C6 at `Real.sin`/`Real.cos`, `dt = 1`, `n = 5`. -/
theorem c6_zero_state_fixed_point_witness :
    (fun s => integrateRK4Step Real.sin Real.cos s FRACTAL_PARAMS 1)^[5] zeroState = zeroState :=
  c6_zero_state_fixed_point Real.sin Real.cos Real.sin_zero 1 5

/-- C7: for every state and parameters with `l1, l2, m1, m2 > 0`,
`integrateRK4Step state params 0` returns the input state unchanged in all
four components (zero-time-step identity). -/
theorem c7_zero_dt_identity (sin cos : ℝ → ℝ) (state : PendulumState ℝ)
    (params : PhysicsParams ℝ) (hl1 : 0 < params.l1) (hl2 : 0 < params.l2)
    (hm1 : 0 < params.m1) (hm2 : 0 < params.m2) :
    integrateRK4Step sin cos state params 0 = state := by
  simp [integrateRK4Step]

/-- Witness for C7 at a concrete state and the fractal parameters. -/
theorem c7_zero_dt_identity_witness :
    integrateRK4Step Real.sin Real.cos
      { theta1 := 1, theta2 := 2, omega1 := 3, omega2 := 4 } FRACTAL_PARAMS 0 =
      { theta1 := 1, theta2 := 2, omega1 := 3, omega2 := 4 } :=
  c7_zero_dt_identity Real.sin Real.cos _ FRACTAL_PARAMS
    (by norm_num [FRACTAL_PARAMS]) (by norm_num [FRACTAL_PARAMS])
    (by norm_num [FRACTAL_PARAMS]) (by norm_num [FRACTAL_PARAMS])

/-- C9: with `m1 > 0`, `m2 ≥ 0` and `cos` bounded above by 1 (as `Math.cos`
is), the denominator `2*m1 + m2 - m2*cos(2*theta1 - 2*theta2)` computed in
`getDerivatives` is at least `2*m1`, hence strictly positive; so with
`l1 ≠ 0` and `l2 ≠ 0` neither of the two divisors `l1*den1` and `l2*den2`
is zero. -/
theorem c9_denominator_positive (cos : ℝ → ℝ) (hcos : ∀ x, cos x ≤ 1)
    (state : PendulumState ℝ) (params : PhysicsParams ℝ)
    (hm1 : 0 < params.m1) (hm2 : 0 ≤ params.m2)
    (hl1 : params.l1 ≠ 0) (hl2 : params.l2 ≠ 0) :
    2 * params.m1 ≤ den1 cos state params ∧ 0 < den1 cos state params ∧
      params.l1 * den1 cos state params ≠ 0 ∧
      params.l2 * den2 cos state params ≠ 0 := by
  have hc := hcos (2 * state.theta1 - 2 * state.theta2)
  have hmul : params.m2 * cos (2 * state.theta1 - 2 * state.theta2) ≤ params.m2 := by
    nlinarith
  have hge : 2 * params.m1 ≤ den1 cos state params := by
    simp only [den1]; linarith
  have hpos : 0 < den1 cos state params := by linarith
  have hpos2 : 0 < den2 cos state params := by
    simp only [den1] at hpos; simp only [den2]; linarith
  exact ⟨hge, hpos, mul_ne_zero hl1 (ne_of_gt hpos), mul_ne_zero hl2 (ne_of_gt hpos2)⟩

/-- Witness for C9 at `Real.cos`, a concrete state and the fractal
parameters. -/
theorem c9_denominator_positive_witness :
    2 * (FRACTAL_PARAMS : PhysicsParams ℝ).m1 ≤ den1 Real.cos zeroState FRACTAL_PARAMS ∧
      0 < den1 Real.cos zeroState FRACTAL_PARAMS ∧
      (FRACTAL_PARAMS : PhysicsParams ℝ).l1 * den1 Real.cos zeroState FRACTAL_PARAMS ≠ 0 ∧
      (FRACTAL_PARAMS : PhysicsParams ℝ).l2 * den2 Real.cos zeroState FRACTAL_PARAMS ≠ 0 :=
  c9_denominator_positive Real.cos (fun x => Real.cos_le_one x) zeroState FRACTAL_PARAMS
    (by norm_num [FRACTAL_PARAMS]) (by norm_num [FRACTAL_PARAMS])
    (by norm_num [FRACTAL_PARAMS]) (by norm_num [FRACTAL_PARAMS])

/-- C3: whenever `reset` is called with at least one of its four arguments
supplied, the resulting live state and the new initial state agree, each
supplied component equals the supplied argument, and each omitted component
equals the corresponding component of the initial state in effect before the
call; in particular `reset(theta1 = X)` followed by `getInitialState()`
yields `{theta1 : X, theta2 : previous, omega1 : previous,
omega2 : previous}`. -/
theorem c3_reset_composition (sim : SimState ℝ) (pi r1 r2 : ℝ)
    (t1 t2 o1 o2 : Option ℝ)
    (hsome : t1.isSome ∨ t2.isSome ∨ o1.isSome ∨ o2.isSome) :
    (sim.reset pi r1 r2 t1 t2 o1 o2).getState =
      { theta1 := t1.getD sim.getInitialState.theta1
        theta2 := t2.getD sim.getInitialState.theta2
        omega1 := o1.getD sim.getInitialState.omega1
        omega2 := o2.getD sim.getInitialState.omega2 } ∧
    (sim.reset pi r1 r2 t1 t2 o1 o2).getInitialState =
      (sim.reset pi r1 r2 t1 t2 o1 o2).getState := by
  rcases t1 with _ | a <;> rcases t2 with _ | b <;> rcases o1 with _ | c <;>
    rcases o2 with _ | d <;>
    simp_all [SimState.reset, SimState.getState, SimState.getInitialState]

/-- Witness for C3: `reset(theta1 = 5)` on a concrete simulation. -/
theorem c3_reset_composition_witness :
    ((sampleSim : SimState ℝ).reset 3.14 0 0 (some 5) none none none).getState =
      { theta1 := (some (5:ℝ)).getD (sampleSim : SimState ℝ).getInitialState.theta1
        theta2 := none.getD (sampleSim : SimState ℝ).getInitialState.theta2
        omega1 := none.getD (sampleSim : SimState ℝ).getInitialState.omega1
        omega2 := none.getD (sampleSim : SimState ℝ).getInitialState.omega2 } ∧
    ((sampleSim : SimState ℝ).reset 3.14 0 0 (some 5) none none none).getInitialState =
      ((sampleSim : SimState ℝ).reset 3.14 0 0 (some 5) none none none).getState :=
  c3_reset_composition sampleSim 3.14 0 0 (some 5) none none none (Or.inl rfl)

/-- C8: `reset()` with all four arguments omitted and random draws
`rand1, rand2 ∈ [0,1)` always yields `omega1 = omega2 = 0`,
`theta1 ∈ [π/2 - 0.25, π/2 + 0.25]` and
`theta2 ∈ [π/2 + 1 - 0.25, π/2 + 1 + 0.25]`, both for the live state and for
the new initial state. -/
theorem c8_random_reset_bounds (sim : SimState ℝ) (pi r1 r2 : ℝ)
    (h1 : 0 ≤ r1) (h1b : r1 < 1) (h2 : 0 ≤ r2) (h2b : r2 < 1) :
    (sim.reset pi r1 r2 none none none none).getState.omega1 = 0 ∧
    (sim.reset pi r1 r2 none none none none).getState.omega2 = 0 ∧
    pi / 2 - 0.25 ≤ (sim.reset pi r1 r2 none none none none).getState.theta1 ∧
    (sim.reset pi r1 r2 none none none none).getState.theta1 ≤ pi / 2 + 0.25 ∧
    pi / 2 + 1 - 0.25 ≤ (sim.reset pi r1 r2 none none none none).getState.theta2 ∧
    (sim.reset pi r1 r2 none none none none).getState.theta2 ≤ pi / 2 + 1 + 0.25 ∧
    (sim.reset pi r1 r2 none none none none).getInitialState =
      (sim.reset pi r1 r2 none none none none).getState := by
  have hs : (sim.reset pi r1 r2 none none none none).getState =
      { theta1 := pi / 2 + (r1 * 0.5 - 0.25)
        theta2 := pi / 2 + 1 + (r2 * 0.5 - 0.25)
        omega1 := 0
        omega2 := 0 } := by
    simp [SimState.reset, SimState.getState]
  have hi : (sim.reset pi r1 r2 none none none none).getInitialState =
      (sim.reset pi r1 r2 none none none none).getState := by
    simp [SimState.reset, SimState.getState, SimState.getInitialState]
  rw [hs]
  refine ⟨rfl, rfl, by nlinarith, by nlinarith, by nlinarith, by nlinarith, hi.trans hs⟩

/-- Witness for C8 at `pi = 3.14`, both draws `0`. -/
theorem c8_random_reset_bounds_witness :
    ((sampleSim : SimState ℝ).reset 3.14 0 0 none none none none).getState.omega1 = 0 ∧
    ((sampleSim : SimState ℝ).reset 3.14 0 0 none none none none).getState.omega2 = 0 ∧
    (3.14:ℝ) / 2 - 0.25 ≤ ((sampleSim : SimState ℝ).reset 3.14 0 0 none none none none).getState.theta1 ∧
    ((sampleSim : SimState ℝ).reset 3.14 0 0 none none none none).getState.theta1 ≤ 3.14 / 2 + 0.25 ∧
    (3.14:ℝ) / 2 + 1 - 0.25 ≤ ((sampleSim : SimState ℝ).reset 3.14 0 0 none none none none).getState.theta2 ∧
    ((sampleSim : SimState ℝ).reset 3.14 0 0 none none none none).getState.theta2 ≤ 3.14 / 2 + 1 + 0.25 ∧
    ((sampleSim : SimState ℝ).reset 3.14 0 0 none none none none).getInitialState =
      ((sampleSim : SimState ℝ).reset 3.14 0 0 none none none none).getState :=
  c8_random_reset_bounds sampleSim 3.14 0 0 le_rfl one_pos le_rfl one_pos

lemma runSteps_length (step : PendulumState K → PendulumState K) (n : ℕ) :
    ∀ s, (runSteps step n s).length = n := by
  induction n with
  | zero => intro s; simp [runSteps]
  | succ n ih => intro s; simp [runSteps, ih]

lemma runSteps_chain (step : PendulumState K → PendulumState K) (n : ℕ) :
    ∀ (s : PendulumState K) (i : ℕ), i + 1 < n + 1 →
      (s :: runSteps step n s)[i + 1]? = ((s :: runSteps step n s)[i]?).map step := by
  induction n with
  | zero => intro s i h; exact absurd h (by omega)
  | succ n ih =>
      intro s i h
      match i with
      | 0 => simp [runSteps]
      | j + 1 =>
          have h2 := ih (step s) j (by omega)
          simpa only [runSteps, List.getElem?_cons_succ] using h2

/-- C2: one frame of the running simulation actor performs
`steps = max(1, round(40 * speedMultiplier))` integration steps with the
fixed `dt = 0.01`; the history delivered to subscribers has length
`steps + 1`, starts with the state at frame start, satisfies
`history[i+1] = integrateRK4Step(history[i], params, 0.01)` for every
`i < steps`, and the frame emits exactly one notification carrying that
history. -/
theorem c2_frame_history (sin cos : ℝ → ℝ) (params : PhysicsParams ℝ)
    (sm : ℚ) (st : PendulumState ℝ) :
    (loopFrame sin cos params sm st).1.length =
        (max 1 (jsRound (40 * sm))).toNat + 1 ∧
    (loopFrame sin cos params sm st).1[0]? = some st ∧
    (∀ i : ℕ, i + 1 < (loopFrame sin cos params sm st).1.length →
      (loopFrame sin cos params sm st).1[i + 1]? =
        ((loopFrame sin cos params sm st).1[i]?).map
          (fun s => integrateRK4Step sin cos s params 0.01)) ∧
    (loopFrame sin cos params sm st).2 = [(loopFrame sin cos params sm st).1] := by
  have hlen : (loopFrame sin cos params sm st).1.length = frameSteps sm + 1 := by
    simp [loopFrame, runSteps_length]
  refine ⟨?_, by simp [loopFrame], ?_, rfl⟩
  · rw [hlen]
    simp [frameSteps, baseStepsPerFrame]
  · intro i h
    rw [hlen] at h
    exact runSteps_chain (fun s => integrateRK4Step sin cos s params 0.01)
      (frameSteps sm) st i h

/-- Witness for C2 at speed multiplier 1: the frame history has
`40 + 1 = 41` entries and its second entry is the integrator applied to the
first. -/
theorem c2_frame_history_witness :
    (loopFrame Real.sin Real.cos FRACTAL_PARAMS 1 zeroState).1.length = 41 ∧
    (loopFrame Real.sin Real.cos FRACTAL_PARAMS 1 zeroState).1[1]? =
      ((loopFrame Real.sin Real.cos FRACTAL_PARAMS 1 zeroState).1[0]?).map
        (fun s => integrateRK4Step Real.sin Real.cos s FRACTAL_PARAMS 0.01) := by
  have h := c2_frame_history Real.sin Real.cos FRACTAL_PARAMS 1 zeroState
  have h40 : jsRound (40 * 1) = 40 := by norm_num [jsRound]
  have h41 : (max 1 (jsRound (40 * 1))).toNat + 1 = 41 := by rw [h40]; rfl
  exact ⟨h.1.trans h41, h.2.2.1 0 (by rw [h.1, h41]; norm_num)⟩

lemma progressPercent_mono (t : ℕ) {c d : ℕ} (h : c ≤ d) :
    progressPercent c t ≤ progressPercent d t := by
  rcases Nat.eq_zero_or_pos t with h0 | h0
  · subst h0; simp [progressPercent]
  · unfold progressPercent jsRound
    apply Int.floor_le_floor
    have ht : (0:ℚ) < (t:ℚ) := by exact_mod_cast h0
    have hcd : (c:ℚ) ≤ (d:ℚ) := by exact_mod_cast h
    have hdiv : (c:ℚ) / (t:ℚ) ≤ (d:ℚ) / (t:ℚ) := by
      exact div_le_div_of_nonneg_right hcd ht.le
    linarith

/-- C4 counterexample: the batch partition that ends its first batch at
`pixelIndex = 62499` is a valid uncancelled run, yet its first callback
already publishes a progress of exactly 100 while `62499 < totalPixels`
cells are done, so a published 100 does not imply completion. -/
theorem c4_progress_counterexample :
    validBatchEnds totalPixels [62499, 62500] ∧
    runPublishes totalPixels [62499, 62500] = [100, 100] ∧
    62499 < totalPixels := by
  refine ⟨⟨?_, ?_⟩, ?_, ?_⟩
  · decide
  · rfl
  · have ha : progressPercent 62499 totalPixels = 100 := by
      norm_num [progressPercent, totalPixels, RESOLUTION, jsRound, Int.floor_eq_iff]
    have hb : progressPercent 62500 totalPixels = 100 := by
      norm_num [progressPercent, totalPixels, RESOLUTION, jsRound, Int.floor_eq_iff]
    simp [runPublishes, ha, hb]
  · norm_num [totalPixels, RESOLUTION]

/-- C4 (amended): across the batch callbacks of an uncancelled run the
published progress percentages are pairwise non-decreasing and the final
callback publishes exactly 100; but a published 100 only guarantees that at
least 62188 of the 62500 cells (99.5%) are done, not that the run has
completed. -/
theorem c4_progress_monotone (ends : List ℕ) (h : validBatchEnds totalPixels ends) :
    List.Pairwise (fun a b : ℤ => a ≤ b) (runPublishes totalPixels ends) ∧
    (runPublishes totalPixels ends).getLast? = some 100 ∧
    (∀ c ∈ ends, progressPercent c totalPixels = 100 → 62188 ≤ c) := by
  obtain ⟨hpw, hlast⟩ := h
  refine ⟨?_, ?_, ?_⟩
  · rw [runPublishes, List.pairwise_map]
    exact hpw.imp (fun hab => progressPercent_mono totalPixels (le_of_lt hab))
  · rw [runPublishes, List.getLast?_map, hlast]
    have h100 : progressPercent totalPixels totalPixels = 100 := by
      norm_num [progressPercent, totalPixels, RESOLUTION, jsRound, Int.floor_eq_iff]
    simp [h100]
  · intro c hc h100
    by_contra hlt
    push_neg at hlt
    have hmono := progressPercent_mono totalPixels (show c ≤ 62187 by omega)
    rw [h100] at hmono
    have h99 : progressPercent 62187 totalPixels = 99 := by
      norm_num [progressPercent, totalPixels, RESOLUTION, jsRound, Int.floor_eq_iff]
    omega

/-- Witness for C4 (amended) on the single-batch run `[62500]`. -/
theorem c4_progress_monotone_witness :
    List.Pairwise (fun a b : ℤ => a ≤ b) (runPublishes totalPixels [62500]) ∧
    (runPublishes totalPixels [62500]).getLast? = some 100 :=
  ⟨(c4_progress_monotone [62500] ⟨by simp, rfl⟩).1,
   (c4_progress_monotone [62500] ⟨by simp, rfl⟩).2.1⟩

/-- C5 counterexample: starting a generation run with resolution 0, step
count 0 and dt 0 raises no configuration error — the start returns
normally, and the first batch finds `pixelIndex >= totalPixels = 0` and
silently completes the run without computing any cell. -/
theorem c5_no_error_counterexample :
    generationStart 0 0 0 = StartOutcome.started ∧
    StartOutcome.started ≠ StartOutcome.configError ∧
    processBatch false 0 (0 * 0) 1 = BatchStep.finished := by
  exact ⟨rfl, by decide, rfl⟩

/-- C5 (amended): the generator performs no configuration validation at
start time — every configuration, including zero or negative resolution,
step count or dt, starts the run without raising an error; a run with
resolution 0 then completes silently on its first batch.  (In the shipped
component the configuration is the fixed positive constants
`RESOLUTION = 250`, `SIM_STEPS = 3000`, `DT = 0.01`, so an invalid
configuration is unreachable.) -/
theorem c5_no_validation (resolution simSteps : ℕ) (dt : ℚ) :
    generationStart resolution simSteps dt = StartOutcome.started ∧
    (resolution = 0 →
      processBatch false 0 (resolution * resolution) 1 = BatchStep.finished) := by
  refine ⟨rfl, ?_⟩
  intro h
  subst h
  rfl

/-- Witness for C5 (amended) at the all-invalid configuration. -/
theorem c5_no_validation_witness :
    generationStart 0 3000 (1 / 100) = StartOutcome.started ∧
    processBatch false 0 (0 * 0) 1 = BatchStep.finished :=
  ⟨(c5_no_validation 0 3000 (1 / 100)).1, (c5_no_validation 0 3000 (1 / 100)).2 rfl⟩

lemma divergenceLoop_eq_sum (sin cos sqrt : K → K) (n : ℕ) :
    ∀ (a b : PendulumState K) (acc : K),
      divergenceLoop sin cos sqrt n a b acc =
        acc + ∑ i ∈ Finset.range n,
          min (dist4 sqrt
            ((fun s => integrateRK4Step sin cos s FRACTAL_PARAMS DT)^[i + 1] a)
            ((fun s => integrateRK4Step sin cos s FRACTAL_PARAMS DT)^[i + 1] b)) 2 := by
  induction n with
  | zero => intro a b acc; simp [divergenceLoop]
  | succ n ih =>
      intro a b acc
      simp only [divergenceLoop]
      rw [ih]
      rw [Finset.sum_range_succ']
      simp only [Function.iterate_succ_apply, Function.iterate_zero_apply]
      ring

lemma dist4_eq_specDist (sqrt : K → K) (a b : PendulumState K) :
    dist4 sqrt a b = specDist sqrt a b := by
  unfold dist4 specDist
  ring_nf

set_option maxRecDepth 4000 in
lemma cellScore_eq_specScore (sin cos sqrt : K → K) (x y : ℕ) :
    cellScore sin cos sqrt x y = specScore sin cos sqrt x y := by
  unfold cellScore specScore
  rw [divergenceLoop_eq_sum, zero_add]
  congr 1
  apply Finset.sum_congr rfl
  intro i _
  rw [dist4_eq_specDist]
  simp only [specTraj, cellSeedA, specSeedA, cellSeedB, specSeedB]

lemma specScore_nonneg (sin cos sqrt : K → K) (hsqrt : ∀ a, 0 ≤ sqrt a) (x y : ℕ) :
    0 ≤ specScore sin cos sqrt x y := by
  unfold specScore
  apply div_nonneg
  · apply Finset.sum_nonneg
    intro i _
    exact le_min (by unfold specDist; exact hsqrt _) (by norm_num)
  · exact Nat.cast_nonneg SIM_STEPS

/-- C1: for every grid cell `(x, y)` with `x, y < RESOLUTION`, the chaos
map's per-cell computation coincides with the specified algorithm: the two
seeds match the specified mapped state and its `+EPSILON` twin, the
divergence score computed by the loop is the arithmetic mean over all
`SIM_STEPS` steps of the per-step Euclidean distance clamped at 2.0, and
the intensity `min(1, (score/1.5)^0.4)` equals `clamp(0, 1, (score/1.5)^0.4)`
(the power of a non-negative score is non-negative, so the lower clamp is
never active). -/
theorem c1_cell_divergence (sin cos sqrt : ℝ → ℝ) (powf : ℝ → ℝ → ℝ)
    (hsqrt : ∀ a, 0 ≤ sqrt a) (hpow : ∀ a b, 0 ≤ a → 0 ≤ powf a b)
    (x y : ℕ) (hx : x < RESOLUTION) (hy : y < RESOLUTION) :
    (cellSeedA x y : PendulumState ℝ) = specSeedA x y ∧
    (cellSeedB x y : PendulumState ℝ) = specSeedB x y ∧
    cellScore sin cos sqrt x y = specScore sin cos sqrt x y ∧
    cellIntensity sin cos sqrt powf x y = specIntensity sin cos sqrt powf x y := by
  refine ⟨rfl, rfl, cellScore_eq_specScore sin cos sqrt x y, ?_⟩
  unfold cellIntensity specIntensity clamp
  rw [cellScore_eq_specScore]
  have hv : 0 ≤ powf (specScore sin cos sqrt x y / 1.5) 0.4 :=
    hpow _ _ (div_nonneg (specScore_nonneg sin cos sqrt hsqrt x y) (by norm_num))
  rw [min_comm]
  exact (max_eq_right (le_min hv zero_le_one)).symm

/-- Witness for C1 at cell `(0, 0)` with the real trigonometric functions,
`Real.sqrt` and `Real.rpow`. -/
theorem c1_cell_divergence_witness :
    (cellSeedA 0 0 : PendulumState ℝ) = specSeedA 0 0 ∧
    (cellSeedB 0 0 : PendulumState ℝ) = specSeedB 0 0 ∧
    cellScore Real.sin Real.cos Real.sqrt 0 0 = specScore Real.sin Real.cos Real.sqrt 0 0 ∧
    cellIntensity Real.sin Real.cos Real.sqrt (fun a b => Real.rpow a b) 0 0 =
      specIntensity Real.sin Real.cos Real.sqrt (fun a b => Real.rpow a b) 0 0 :=
  c1_cell_divergence Real.sin Real.cos Real.sqrt (fun a b => Real.rpow a b)
    Real.sqrt_nonneg (fun a b ha => Real.rpow_nonneg ha b) 0 0
    (by norm_num [RESOLUTION]) (by norm_num [RESOLUTION])

lemma floor_nonneg_le (x : ℚ) (c : ℤ) (h0 : 0 ≤ x) (hc : x < (c : ℚ) + 1) :
    0 ≤ ⌊x⌋ ∧ ⌊x⌋ ≤ c := by
  refine ⟨Int.floor_nonneg.mpr h0, ?_⟩
  have h2 : x < ((c + 1 : ℤ) : ℚ) := by push_cast; linarith
  have h3 := Int.floor_lt.mpr h2
  omega

/-- C10: for every intensity in `[0, 1]` the 5-segment piecewise colour
mapping produces `r`, `g`, `b` each within `[0, 255]` and alpha exactly 255,
and the formulas of adjacent segments agree at the boundaries 0.2, 0.4, 0.6
and 0.8 (the mapping is continuous there). -/
theorem c10_color_map (q : ℚ) (h0 : 0 ≤ q) (h1 : q ≤ 1) :
    (0 ≤ (colorMap q).1 ∧ (colorMap q).1 ≤ 255) ∧
    (0 ≤ (colorMap q).2.1 ∧ (colorMap q).2.1 ≤ 255) ∧
    (0 ≤ (colorMap q).2.2.1 ∧ (colorMap q).2.2.1 ≤ 255) ∧
    (colorMap q).2.2.2 = 255 ∧
    seg1 0.2 = seg2 0.2 ∧ seg2 0.4 = seg3 0.4 ∧
    seg3 0.6 = seg4 0.6 ∧ seg4 0.8 = seg5 0.8 := by
  have hseg12 : seg1 0.2 = seg2 0.2 := by
    norm_num [seg1, seg2, Prod.ext_iff]
  have hseg23 : seg2 0.4 = seg3 0.4 := by
    norm_num [seg2, seg3, Prod.ext_iff]
  have hseg34 : seg3 0.6 = seg4 0.6 := by
    norm_num [seg3, seg4, Prod.ext_iff]
  have hseg45 : seg4 0.8 = seg5 0.8 := by
    norm_num [seg4, seg5, Prod.ext_iff]
  refine ⟨?_, ?_, ?_, ?_, hseg12, hseg23, hseg34, hseg45⟩ <;>
    unfold colorMap colorRGB <;>
    split_ifs with hA hB hC hD
  case _ => simp [seg1]
  case _ =>
      simp only [seg2]
      obtain ⟨u1, u2⟩ := floor_nonneg_le ((q - 0.2) / 0.2 * 100) 100
        (by rw [show (q - 0.2) / 0.2 * 100 = q * 500 - 100 from by ring]; nlinarith)
        (by rw [show (q - 0.2) / 0.2 * 100 = q * 500 - 100 from by ring]; push_cast; nlinarith)
      exact ⟨u1, by omega⟩
  case _ =>
      simp only [seg3]
      obtain ⟨u1, u2⟩ := floor_nonneg_le ((q - 0.4) / 0.2 * 155) 155
        (by rw [show (q - 0.4) / 0.2 * 155 = q * 775 - 310 from by ring]; nlinarith)
        (by rw [show (q - 0.4) / 0.2 * 155 = q * 775 - 310 from by ring]; push_cast; nlinarith)
      exact ⟨by omega, by omega⟩
  case _ => simp [seg4]
  case _ => simp [seg5]
  case _ => simp [seg1]
  case _ => simp [seg2]
  case _ => simp [seg3]
  case _ =>
      simp only [seg4]
      obtain ⟨u1, u2⟩ := floor_nonneg_le ((q - 0.6) / 0.2 * 200) 200
        (by rw [show (q - 0.6) / 0.2 * 200 = q * 1000 - 600 from by ring]; nlinarith)
        (by rw [show (q - 0.6) / 0.2 * 200 = q * 1000 - 600 from by ring]; push_cast; nlinarith)
      exact ⟨u1, by omega⟩
  case _ =>
      simp only [seg5]
      obtain ⟨u1, u2⟩ := floor_nonneg_le ((q - 0.8) / 0.2 * 55) 55
        (by rw [show (q - 0.8) / 0.2 * 55 = q * 275 - 220 from by ring]; nlinarith)
        (by rw [show (q - 0.8) / 0.2 * 55 = q * 275 - 220 from by ring]; push_cast; nlinarith)
      exact ⟨by omega, by omega⟩
  case _ =>
      simp only [seg1]
      obtain ⟨u1, u2⟩ := floor_nonneg_le (q / 0.2 * 160) 160
        (by rw [show q / 0.2 * 160 = q * 800 from by ring]; nlinarith)
        (by rw [show q / 0.2 * 160 = q * 800 from by ring]; push_cast; nlinarith)
      exact ⟨u1, by omega⟩
  case _ =>
      simp only [seg2]
      obtain ⟨u1, u2⟩ := floor_nonneg_le ((q - 0.2) / 0.2 * 95) 95
        (by rw [show (q - 0.2) / 0.2 * 95 = q * 475 - 95 from by ring]; nlinarith)
        (by rw [show (q - 0.2) / 0.2 * 95 = q * 475 - 95 from by ring]; push_cast; nlinarith)
      exact ⟨by omega, by omega⟩
  case _ =>
      simp only [seg3]
      obtain ⟨u1, u2⟩ := floor_nonneg_le ((q - 0.4) / 0.2 * 255) 255
        (by rw [show (q - 0.4) / 0.2 * 255 = q * 1275 - 510 from by ring]; nlinarith)
        (by rw [show (q - 0.4) / 0.2 * 255 = q * 1275 - 510 from by ring]; push_cast; nlinarith)
      exact ⟨by omega, by omega⟩
  case _ => simp [seg4]
  case _ =>
      simp only [seg5]
      obtain ⟨u1, u2⟩ := floor_nonneg_le ((q - 0.8) / 0.2 * 255) 255
        (by rw [show (q - 0.8) / 0.2 * 255 = q * 1275 - 1020 from by ring]; nlinarith)
        (by rw [show (q - 0.8) / 0.2 * 255 = q * 1275 - 1020 from by ring]; push_cast; nlinarith)
      exact ⟨by omega, by omega⟩
  case _ => simp [seg1]
  case _ => simp [seg2]
  case _ => simp [seg3]
  case _ => simp [seg4]
  case _ => simp [seg5]

/-- Witness for C10 at intensity 1/2. -/
theorem c10_color_map_witness :
    (0 ≤ (colorMap (1 / 2)).1 ∧ (colorMap (1 / 2)).1 ≤ 255) ∧
    (0 ≤ (colorMap (1 / 2)).2.1 ∧ (colorMap (1 / 2)).2.1 ≤ 255) ∧
    (0 ≤ (colorMap (1 / 2)).2.2.1 ∧ (colorMap (1 / 2)).2.2.1 ≤ 255) ∧
    (colorMap (1 / 2)).2.2.2 = 255 ∧
    seg1 0.2 = seg2 0.2 ∧ seg2 0.4 = seg3 0.4 ∧
    seg3 0.6 = seg4 0.6 ∧ seg4 0.8 = seg5 0.8 :=
  c10_color_map (1 / 2) (by norm_num) (by norm_num)
